import Mathlib

/-!
Shallow embedding of the LED animation playback engine's segment model
(`Segment` dataclass in the Cython source) and of the color utilities
(`ColorUtils`).  Real-valued quantities (positions, speeds, brightness
factors, times) are modelled as rationals; Python's float `%` with a
positive divisor is `pymod`, and the C `<int>` / Python `int()` cast is
`truncInt` (truncation toward zero).
-/

/-- Python float `%` for a positive divisor: `a - b * ⌊a / b⌋`. -/
def pymod (a b : ℚ) : ℚ := a - b * ⌊a / b⌋

/-- Truncation toward zero, the semantics of C `<int>` and Python `int()`.
For negative arguments `-⌊-x⌋` equals the ceiling of `x`. -/
def truncInt (x : ℚ) : Int := if 0 ≤ x then ⌊x⌋ else -⌊-x⌋

/-- RGB triple with integer channels, as in the Cython `RGBColor` struct. -/
structure RGB where
  r : Int
  g : Int
  b : Int
deriving DecidableEq, Repr

/-- The `Segment` dataclass: the fields that the rendering kernel reads.
A dimmer transition is `(duration_ms, start_brightness, end_brightness)`. -/
structure Segment where
  segment_id : Int
  color : List Int
  transparency : List ℚ
  length : List Int
  move_speed : ℚ
  move_range : List Int
  current_position : ℚ
  is_edge_reflect : Bool
  dimmer_time : List (Int × Int × Int)
  segment_start_time : ℚ
deriving DecidableEq, Repr

/-- Total dimmer cycle duration: `Σ max(1, duration_i)`, accumulated as a
float in the source (`total_cycle_ms`). -/
def dimmerCycleMs (dimmer : List (Int × Int × Int)) : ℚ :=
  (dimmer.map (fun tr => ((max 1 tr.1 : Int) : ℚ))).sum

/-- The phase walk of `get_brightness_at_time`: accumulate `current_time_ms`
and stop in the transition whose window contains `phase`. -/
def dimmerWalk (phase : ℚ) : List (Int × Int × Int) → ℚ → Option ℚ
  | [], _ => none
  | tr :: rest, cur =>
    let dm : ℚ := ((max 1 tr.1 : Int) : ℚ)
    if phase ≤ cur + dm then
      let progress : ℚ := if dm > 0 then max 0 (min 1 ((phase - cur) / dm)) else 0
      some (max 0 (min 1 (((tr.2.1 : ℚ) + ((tr.2.2 : ℚ) - (tr.2.1 : ℚ)) * progress) / 100)))
    else dimmerWalk phase rest (cur + dm)

/-- `Segment.get_brightness_at_time`: time-based dimmer brightness in [0,1]. -/
def Segment.get_brightness_at_time (seg : Segment) (current_time : ℚ) : ℚ :=
  if seg.dimmer_time = [] then 1
  else
    let elapsed := (current_time - seg.segment_start_time) * 1000
    let cycle := dimmerCycleMs seg.dimmer_time
    if cycle ≤ 0 then 1
    else
      let phase := pymod elapsed cycle
      match dimmerWalk phase seg.dimmer_time 0 with
      | some b => b
      | none =>
        match seg.dimmer_time.getLast? with
        | some tr => max 0 (min 1 ((tr.2.2 : ℚ) / 100))
        | none => 1

/-- Intermediate `(current_position, move_speed, segment_start_time)` state
threaded through `update_position`. -/
structure MoveState where
  pos : ℚ
  speed : ℚ
  start : ℚ
deriving DecidableEq, Repr

/-- First block of `update_position`: the `if self.current_position < 0`
handling (reflect off 0, wrap by `range_size`, or clamp to 0 when the
range has fewer than two entries). -/
def negAdjust (range : List Int) (reflect : Bool) (pos v st now : ℚ) : MoveState :=
  if pos < 0 then
    match range with
    | r0 :: r1 :: _ =>
      if reflect then
        if v < 0 then ⟨(r0 : ℚ) + |pos|, |v|, now⟩ else ⟨(r0 : ℚ) + |pos|, v, st⟩
      else
        if (r1 : ℚ) - (r0 : ℚ) > 0 then
          ⟨(r1 : ℚ) + pymod pos ((r1 : ℚ) - (r0 : ℚ)), v, st⟩
        else ⟨pos, v, st⟩
    | _ => if v < 0 then ⟨0, |v|, now⟩ else ⟨0, v, st⟩
  else ⟨pos, v, st⟩

/-- Reflect branch of the second block: clamp at the normalized bounds and
flip the speed (resetting the timing) when the direction changes. -/
def reflectAt (mn mx : ℚ) (s : MoveState) (now : ℚ) : MoveState :=
  if s.pos ≤ mn then
    if s.speed < 0 then ⟨mn, |s.speed|, now⟩ else ⟨mn, s.speed, s.start⟩
  else if s.pos ≥ mx then
    if s.speed > 0 then ⟨mx, -|s.speed|, now⟩ else ⟨mx, s.speed, s.start⟩
  else s

/-- Wrap branch of the second block: wrap into `[mn, mx]` by `mx - mn`,
pinning to `mn` when the range is degenerate. -/
def wrapAt (mn mx p : ℚ) : ℚ :=
  if mx - mn > 0 then
    if p < mn then mx - pymod (mn - p) (mx - mn)
    else if p > mx then mn + pymod (p - mx) (mx - mn)
    else p
  else mn

/-- Second block of `update_position`: normalize the range (swapping and
writing back the two-element list when `min_pos > max_pos`) and apply
reflect or wrap. -/
def boundaryAdjust (range : List Int) (reflect : Bool) (s : MoveState) (now : ℚ) :
    MoveState × List Int :=
  match range with
  | r0 :: r1 :: _ =>
    if reflect then
      (reflectAt ((min r0 r1 : Int) : ℚ) ((max r0 r1 : Int) : ℚ) s now,
       if r0 > r1 then [min r0 r1, max r0 r1] else range)
    else
      (⟨wrapAt ((min r0 r1 : Int) : ℚ) ((max r0 r1 : Int) : ℚ) s.pos, s.speed, s.start⟩,
       if r0 > r1 then [min r0 r1, max r0 r1] else range)
  | _ => (s, range)

/-- Both blocks of `update_position` after the advance: negative-position
handling followed by the boundary handling. -/
def updateCore (seg : Segment) (delta_time now : ℚ) : MoveState × List Int :=
  boundaryAdjust seg.move_range seg.is_edge_reflect
    (negAdjust seg.move_range seg.is_edge_reflect
      (seg.current_position + seg.move_speed * delta_time) seg.move_speed
      seg.segment_start_time now) now

/-- `Segment.update_position`: advance by `move_speed * delta_time`, handle
negative positions, reflect or wrap at the range boundary, and floor-clamp
the result at `-1000`.  `reset_animation_timing` is modelled by the `now`
argument. -/
def Segment.update_position (seg : Segment) (delta_time now : ℚ) : Segment :=
  if |seg.move_speed| < 1 / 1000 then seg
  else
    { seg with
        current_position := max (-1000) (updateCore seg delta_time now).1.pos
        move_speed := (updateCore seg delta_time now).1.speed
        segment_start_time := (updateCore seg delta_time now).1.start
        move_range := (updateCore seg delta_time now).2 }

/-- Concrete still segment whose position is already below `-1000`. -/
def segC10cex : Segment :=
  ⟨0, [0], [0], [1], 0, [0, 224], -5000, true, [(1000, 0, 100)], 0⟩

/-- Concrete moving segment for the C10 witness. -/
def segW10 : Segment :=
  ⟨0, [0], [0], [1], 1, [0, 224], -5000, true, [(1000, 0, 100)], 0⟩

/-- Concrete reflect-mode segment whose whole `move_range` lies below the
`-1000` floor clamp. -/
def segC5cex : Segment :=
  ⟨0, [0], [0], [1], 1, [-2000, -1500], -1800, true, [(1000, 0, 100)], 0⟩

/-- Concrete reflect-mode segment for the C5 witness. -/
def segW5 : Segment :=
  ⟨0, [0], [0], [1], -1, [0, 9], 1/2, true, [(1000, 0, 100)], 0⟩

/-- Concrete wrap-mode segment with `move_range = [3, 13]` advancing to a
negative position. -/
def segC6cex : Segment :=
  ⟨0, [0], [0], [1], -2, [3, 13], 0, false, [(1000, 0, 100)], 0⟩

/-- Concrete wrap-mode segment for the C6 witness. -/
def segW6 : Segment :=
  ⟨0, [0], [0], [1], 2, [0, 9], 9, false, [(1000, 0, 100)], 0⟩

/-- Concrete segment whose integer position becomes fractional after one
update. -/
def segC2cex : Segment :=
  ⟨0, [0], [0], [1], 1/2, [0, 224], 0, true, [(1000, 0, 100)], 0⟩

/-- Concrete in-range moving segment for the C2 witness. -/
def segW2 : Segment :=
  ⟨0, [0], [0], [1], 1, [0, 224], 3, true, [(1000, 0, 100)], 0⟩

/-- Concrete segment with a single dimmer transition whose start and end
brightness differ, observed exactly one cycle after `segment_start_time`. -/
def segC1cex : Segment :=
  ⟨0, [0], [0], [1], 0, [0, 224], 0, true, [(1000, 50, 100)], 0⟩

/-- Concrete segment with two dimmer transitions for the C1 witness. -/
def segW1 : Segment :=
  ⟨0, [0], [0], [1], 0, [0, 224], 0, true, [(500, 30, 80), (250, 60, 10)], 0⟩

/-- Channel clamp of `apply_transparency_brightness` in the segment module:
upper bound first, then lower bound. -/
def clampChan (v : Int) : Int := if v > 255 then 255 else if v < 0 then 0 else v

/-- Cython `apply_transparency_brightness`: channel times
`(1 - transparency) * brightness`, truncated and clamped to `[0, 255]`. -/
def apply_transparency_brightness (base : RGB) (transparency brightness : ℚ) : RGB :=
  ⟨clampChan (truncInt ((base.r : ℚ) * (1 - transparency) * brightness)),
   clampChan (truncInt ((base.g : ℚ) * (1 - transparency) * brightness)),
   clampChan (truncInt ((base.b : ℚ) * (1 - transparency) * brightness))⟩

/-- Cython `add_color_to_led` in the segment module: per-channel addition
saturating at 255 only (no lower clamp). -/
def add_color_to_led (a c : RGB) : RGB :=
  ⟨if a.r + c.r ≤ 255 then a.r + c.r else 255,
   if a.g + c.g ≤ 255 then a.g + c.g else 255,
   if a.b + c.b ≤ 255 then a.b + c.b else 255⟩

/-- Fade factor of the Cython `apply_fractional_fade`. -/
def fadeFactor (fractional_part : ℚ) (is_first is_last : Bool) : ℚ :=
  if is_first && !is_last then
    (if fractional_part > 1 / 10 then fractional_part else 1 / 10)
  else if is_last && !is_first then
    (if 1 - fractional_part > 1 / 10 then 1 - fractional_part else 1 / 10)
  else 1

/-- Cython `apply_fractional_fade`: scale each channel by the fade factor
with truncation. -/
def apply_fractional_fade (c : RGB) (fractional_part : ℚ) (is_first is_last : Bool) : RGB :=
  ⟨truncInt ((c.r : ℚ) * fadeFactor fractional_part is_first is_last),
   truncInt ((c.g : ℚ) * fadeFactor fractional_part is_first is_last),
   truncInt ((c.b : ℚ) * fadeFactor fractional_part is_first is_last)⟩

/-- Palette lookup of the fast path: black when the index is out of range. -/
def paletteColor (palette : List RGB) (color_index : Int) : RGB :=
  if 0 ≤ color_index ∧ color_index < (palette.length : Int) then
    palette.getD color_index.toNat ⟨0, 0, 0⟩
  else ⟨0, 0, 0⟩

/-- Part-expansion loop of `render_to_led_array_fast` /
`get_led_colors_with_timing_fast`: for each part `i` append
`max(0, length[i])` copies of the final color. -/
def expandParts (seg : Segment) (palette : List RGB) (brightness : ℚ) :
    Nat → List Int → List RGB
  | _, [] => []
  | i, pl :: rest =>
    (if max 0 pl = 0 then []
     else List.replicate (max 0 pl).toNat
       (apply_transparency_brightness (paletteColor palette (seg.color.getD i 0))
         (seg.transparency.getD i 0) brightness))
    ++ expandParts seg palette brightness (i + 1) rest

/-- Extra-color loop: when `|color| > |length|` each excess color
contributes exactly one LED at the tail. -/
def expandExtras (seg : Segment) (palette : List RGB) (brightness : ℚ) :
    Nat → Nat → List RGB
  | _, 0 => []
  | i, n + 1 =>
    apply_transparency_brightness (paletteColor palette (seg.color.getD i 0))
      (seg.transparency.getD i 0) brightness
    :: expandExtras seg palette brightness (i + 1) n

/-- The full expanded color run of a segment (fast-path arithmetic). -/
def expandColors (seg : Segment) (palette : List RGB) (brightness : ℚ) : List RGB :=
  expandParts seg palette brightness 0 seg.length ++
  (if seg.length.length < seg.color.length then
     expandExtras seg palette brightness seg.length.length
       (seg.color.length - seg.length.length)
   else [])

/-- The fast path caps the expanded run at its 1000-entry scratch buffer. -/
def fastColors (seg : Segment) (palette : List RGB) (current_time : ℚ) : List RGB :=
  (expandColors seg palette (seg.get_brightness_at_time current_time)).take 1000

/-- Saturating add of one color into the frame with bounds check
(fast-path `add_color_to_led`, which ignores out-of-range indices). -/
def addToFrame (frame : List RGB) (idx : Int) (c : RGB) : List RGB :=
  if 0 ≤ idx ∧ idx < (frame.length : Int) then
    frame.set idx.toNat (add_color_to_led (frame.getD idx.toNat ⟨0, 0, 0⟩) c)
  else frame

/-- Placement loop of the fast path: LED `base + i` receives color `i`,
edge-faded when the run has more than one LED and the fractional part is
positive. -/
def placeLoop (n : Nat) (frac : ℚ) (base : Int) : Nat → List RGB → List RGB → List RGB
  | _, [], frame => frame
  | i, c :: cs, frame =>
    placeLoop n frac base (i + 1) cs
      (addToFrame frame (base + (i : Int))
        (if 1 < n ∧ 0 < frac then
           apply_fractional_fade c frac (i == 0) (i == n - 1)
         else c))

/-- `Segment.render_to_led_array_fast`: the Cython fast render path.  The
malloc-failure early return cannot occur in the model. -/
def Segment.render_to_led_array_fast (seg : Segment) (palette : List RGB)
    (current_time : ℚ) (led_array : List RGB) : List RGB :=
  if seg.color = [] ∨ palette = [] then led_array
  else if seg.get_brightness_at_time current_time ≤ 0 then led_array
  else if 0 < (fastColors seg palette current_time).length then
    if seg.current_position < 0 ∧
        -((fastColors seg palette current_time).length : ℚ) < seg.current_position then
      placeLoop
        ((fastColors seg palette current_time).drop
          (truncInt |seg.current_position|).toNat).length
        0 0 0
        ((fastColors seg palette current_time).drop
          (truncInt |seg.current_position|).toNat)
        led_array
    else
      placeLoop (fastColors seg palette current_time).length
        (max 0 (min 1 (seg.current_position
          - ((max 0 (truncInt seg.current_position) : Int) : ℚ))))
        (max 0 (truncInt seg.current_position)) 0
        (fastColors seg palette current_time) led_array
  else led_array

/-- `clamp_rgb` of the ColorUtils module: both bounds. -/
def clamp_rgb (v : Int) : Int := if v < 0 then 0 else if v > 255 then 255 else v

/-- `ColorUtils.validate_rgb_color` on an RGB triple. -/
def ColorUtils.validate_rgb_color (c : RGB) : RGB :=
  ⟨clamp_rgb c.r, clamp_rgb c.g, clamp_rgb c.b⟩

/-- `ColorUtils.get_palette_color`. -/
def ColorUtils.get_palette_color (palette : List RGB) (color_index : Int) : RGB :=
  if palette = [] then ⟨0, 0, 0⟩
  else if 0 ≤ color_index ∧ color_index < (palette.length : Int) then
    palette.getD color_index.toNat ⟨0, 0, 0⟩
  else ⟨0, 0, 0⟩

/-- `ColorUtils.apply_transparency`: clamp the transparency into `[0, 1]`,
then scale each channel by the opacity with truncation. -/
def ColorUtils.apply_transparency (c : RGB) (transparency : ℚ) : RGB :=
  ⟨truncInt ((c.r : ℚ) * (1 - max 0 (min 1 transparency))),
   truncInt ((c.g : ℚ) * (1 - max 0 (min 1 transparency))),
   truncInt ((c.b : ℚ) * (1 - max 0 (min 1 transparency)))⟩

/-- `ColorUtils.apply_brightness`: clamp the factor into `[0, 1]`, then
scale each channel with truncation. -/
def ColorUtils.apply_brightness (c : RGB) (brightness_factor : ℚ) : RGB :=
  ⟨truncInt ((c.r : ℚ) * max 0 (min 1 brightness_factor)),
   truncInt ((c.g : ℚ) * max 0 (min 1 brightness_factor)),
   truncInt ((c.b : ℚ) * max 0 (min 1 brightness_factor))⟩

/-- `ColorUtils.apply_fade_factor`: clamp the factor into `[0, 1]`, then
scale each channel with truncation. -/
def ColorUtils.apply_fade_factor (c : RGB) (fade : ℚ) : RGB :=
  ⟨truncInt ((c.r : ℚ) * max 0 (min 1 fade)),
   truncInt ((c.g : ℚ) * max 0 (min 1 fade)),
   truncInt ((c.b : ℚ) * max 0 (min 1 fade))⟩

/-- `ColorUtils.calculate_segment_color`: validate, transparency,
brightness, validate. -/
def ColorUtils.calculate_segment_color (base : RGB) (transparency brightness : ℚ) : RGB :=
  ColorUtils.validate_rgb_color
    (ColorUtils.apply_brightness
      (ColorUtils.apply_transparency (ColorUtils.validate_rgb_color base) transparency)
      brightness)

/-- `ColorUtils.calculate_fractional_fade_color`. -/
def ColorUtils.calculate_fractional_fade_color (c : RGB) (fractional_part : ℚ)
    (is_first is_last : Bool) : RGB :=
  ColorUtils.apply_fade_factor c
    (if is_first && is_last then 1
     else if is_first then max (1 / 10) fractional_part
     else if is_last then max (1 / 10) (1 - fractional_part)
     else 1)

/-- `ColorUtils.add_colors_to_led_array`: validate the color, then add with
both-bounds channel clamping; out-of-range indices are ignored. -/
def ColorUtils.add_colors_to_led_array (led_array : List RGB) (led_index : Int)
    (c : RGB) : List RGB :=
  if 0 ≤ led_index ∧ led_index < (led_array.length : Int) then
    led_array.set led_index.toNat
      ⟨clamp_rgb ((led_array.getD led_index.toNat ⟨0, 0, 0⟩).r
          + (ColorUtils.validate_rgb_color c).r),
       clamp_rgb ((led_array.getD led_index.toNat ⟨0, 0, 0⟩).g
          + (ColorUtils.validate_rgb_color c).g),
       clamp_rgb ((led_array.getD led_index.toNat ⟨0, 0, 0⟩).b
          + (ColorUtils.validate_rgb_color c).b)⟩
  else led_array

/-- Part loop of the pure-Python `get_led_colors_with_timing` fallback. -/
def partsLoopFallback (seg : Segment) (palette : List RGB) (brightness : ℚ) :
    Nat → List Int → List RGB
  | _, [] => []
  | i, pl :: rest =>
    (if max 0 pl = 0 then []
     else List.replicate (max 0 pl).toNat
       (ColorUtils.calculate_segment_color
         (ColorUtils.get_palette_color palette (seg.color.getD i 0))
         (seg.transparency.getD i 0) brightness))
    ++ partsLoopFallback seg palette brightness (i + 1) rest

/-- Extra-color loop of the pure-Python fallback. -/
def extrasLoopFallback (seg : Segment) (palette : List RGB) (brightness : ℚ) :
    Nat → Nat → List RGB
  | _, 0 => []
  | i, n + 1 =>
    ColorUtils.calculate_segment_color
      (ColorUtils.get_palette_color palette (seg.color.getD i 0))
      (seg.transparency.getD i 0) brightness
    :: extrasLoopFallback seg palette brightness (i + 1) n

/-- Pure-Python `Segment.get_led_colors_with_timing` fallback branch. -/
def Segment.get_led_colors_with_timing (seg : Segment) (palette : List RGB)
    (current_time : ℚ) : List RGB :=
  if seg.color = [] ∨ palette = [] then []
  else if seg.get_brightness_at_time current_time ≤ 0 then []
  else
    partsLoopFallback seg palette (seg.get_brightness_at_time current_time) 0 seg.length ++
    (if seg.length.length < seg.color.length then
       extrasLoopFallback seg palette (seg.get_brightness_at_time current_time)
         seg.length.length (seg.color.length - seg.length.length)
     else [])

/-- Placement loop of the pure-Python fallback: skip out-of-range indices,
fade or validate the color, then add with both-bounds clamping. -/
def placeLoopFallback (n : Nat) (frac : ℚ) (base : Int) :
    Nat → List RGB → List RGB → List RGB
  | _, [], frame => frame
  | i, c :: cs, frame =>
    placeLoopFallback n frac base (i + 1) cs
      (if base + (i : Int) < 0 ∨ (frame.length : Int) ≤ base + (i : Int) then frame
       else
         ColorUtils.add_colors_to_led_array frame (base + (i : Int))
           (if 1 < n ∧ 0 < frac then
              ColorUtils.calculate_fractional_fade_color c frac (i == 0) (i == n - 1)
            else ColorUtils.validate_rgb_color c))

/-- Pure-Python `Segment.render_to_led_array` fallback branch (the numpy
fast path delegates to `render_to_led_array_fast`). -/
def Segment.render_to_led_array (seg : Segment) (palette : List RGB)
    (current_time : ℚ) (led_array : List RGB) : List RGB :=
  if seg.get_led_colors_with_timing palette current_time = [] then led_array
  else if seg.current_position < 0 then
    if seg.current_position
        < -((seg.get_led_colors_with_timing palette current_time).length : ℚ) then
      led_array
    else if (seg.get_led_colors_with_timing palette current_time).length
        ≤ (truncInt |seg.current_position|).toNat then
      led_array
    else if led_array = [] ∨ (led_array.length : Int) ≤ 0 then led_array
    else
      placeLoopFallback
        ((seg.get_led_colors_with_timing palette current_time).drop
          (truncInt |seg.current_position|).toNat).length
        0 0 0
        ((seg.get_led_colors_with_timing palette current_time).drop
          (truncInt |seg.current_position|).toNat)
        led_array
  else if led_array = []
      ∨ (led_array.length : Int) ≤ max 0 (truncInt seg.current_position) then
    led_array
  else
    placeLoopFallback (seg.get_led_colors_with_timing palette current_time).length
      (max 0 (min 1 (seg.current_position
        - ((max 0 (truncInt seg.current_position) : Int) : ℚ))))
      (max 0 (truncInt seg.current_position)) 0
      (seg.get_led_colors_with_timing palette current_time) led_array

/-- Master-brightness clamp of `ColorUtils.apply_master_brightness`. -/
def clampMaster (m : Int) : Int := if m < 0 then 0 else if m > 255 then 255 else m

/-- `ColorUtils.apply_master_brightness`: identity at a clamped value of
255, otherwise scale every channel by `m / 255` with truncation. -/
def ColorUtils.apply_master_brightness (color : List Int) (master_brightness : Int) :
    List Int :=
  if clampMaster master_brightness = 255 then color
  else color.map
    (fun c : Int => truncInt ((c : ℚ) * (((clampMaster master_brightness : Int) : ℚ) / 255)))

/-- Pad a list up to length `n` by repeating `x` (the while-append loops of
`Segment.__post_init__`). -/
def padTo (xs : List α) (n : Nat) (x : α) : List α :=
  xs ++ List.replicate (n - xs.length) x

/-- `__post_init__` on `color`: an empty list becomes `[0]`. -/
def postInitColor (color : List Int) : List Int := if color = [] then [0] else color

/-- `__post_init__` on `transparency`: default to zeros of `|color|`, then
pad up to `|color|` with `0.0`. -/
def postInitTransparency (color : List Int) (transparency : List ℚ) : List ℚ :=
  padTo (if transparency = [] then List.replicate color.length 0 else transparency)
    color.length 0

/-- `__post_init__` on `length`: default to ones of `|color|`, then pad up
to `|color|` with `1`. -/
def postInitLength (color : List Int) (len0 : List Int) : List Int :=
  padTo (if len0 = [] then List.replicate color.length 1 else len0) color.length 1

/-- `_validate_dimmer_time` on one entry: a 3-element list is clamped
(`duration ≥ 100`, brightnesses into `[0, 100]`), anything else becomes
`[1000, 0, 100]`. -/
def validateDimmerEntry (tr : List Int) : List Int :=
  if tr.length = 3 then
    [max 100 (tr.getD 0 0), max 0 (min 100 (tr.getD 1 0)), max 0 (min 100 (tr.getD 2 0))]
  else [1000, 0, 100]

/-- `_validate_dimmer_time`: an empty list becomes the default, otherwise
every entry is validated. -/
def validateDimmerTime (dimmer : List (List Int)) : List (List Int) :=
  if dimmer = [] then [[1000, 0, 100]]
  else dimmer.map validateDimmerEntry

/-- `__post_init__` on `dimmer_time` followed by `_validate_dimmer_time`
(the `isinstance` guard for the legacy scalar format is outside this
list-of-lists model). -/
def postInitDimmer (dimmer : List (List Int)) : List (List Int) :=
  validateDimmerTime (if dimmer = [] then [[1000, 0, 100]] else dimmer)

/-- One-color red palette. -/
def palRed : List RGB := [⟨255, 0, 0⟩]

/-- A single zeroed frame cell. -/
def frameOne : List RGB := [⟨0, 0, 0⟩]

/-- Concrete one-LED segment at `current_position = -1 = -N`. -/
def segC3 : Segment :=
  ⟨0, [0], [0], [1], 0, [0, 224], -1, true, [(1000, 100, 100)], 0⟩

/-- Concrete segment whose dimmer yields brightness 0 at `t = 0`. -/
def segW7 : Segment :=
  ⟨0, [0], [0], [1], 0, [0, 224], 0, true, [(1000, 0, 0)], 0⟩

example : pymod (-2) 10 = 8 := by norm_num [pymod]
example : truncInt (-3/2) = -1 := by norm_num [truncInt]
example : truncInt (3/2) = 1 := by norm_num [truncInt]

lemma pymod_nonneg (a : ℚ) {b : ℚ} (hb : 0 < b) : 0 ≤ pymod a b := by
  unfold pymod
  have h1 : ((⌊a / b⌋ : ℚ)) ≤ a / b := Int.floor_le (a / b)
  have h2 : ((⌊a / b⌋ : ℚ)) * b ≤ a / b * b :=
    mul_le_mul_of_nonneg_right h1 hb.le
  rw [div_mul_cancel₀ a hb.ne'] at h2
  nlinarith

lemma pymod_lt (a : ℚ) {b : ℚ} (hb : 0 < b) : pymod a b < b := by
  unfold pymod
  have h1 : a / b < (⌊a / b⌋ : ℚ) + 1 := Int.lt_floor_add_one (a / b)
  have h2 : a / b * b < ((⌊a / b⌋ : ℚ) + 1) * b :=
    mul_lt_mul_of_pos_right h1 hb
  rw [div_mul_cancel₀ a hb.ne'] at h2
  nlinarith

lemma pymod_eq_self {a b : ℚ} (h0 : 0 ≤ a) (hab : a < b) : pymod a b = a := by
  have hb : 0 < b := lt_of_le_of_lt h0 hab
  have : ⌊a / b⌋ = 0 := by
    rw [Int.floor_eq_zero_iff]
    constructor
    · positivity
    · rw [div_lt_one hb]; exact hab
  unfold pymod
  rw [this]
  ring

lemma pymod_intCast_mul {b : ℚ} (k : ℤ) (hb : b ≠ 0) : pymod ((k : ℚ) * b) b = 0 := by
  unfold pymod
  rw [mul_div_assoc, div_self hb, mul_one, Int.floor_intCast]
  ring

lemma pymod_natCast_mul {b : ℚ} (k : ℕ) (hb : b ≠ 0) : pymod ((k : ℚ) * b) b = 0 := by
  have := pymod_intCast_mul (b := b) (k : ℤ) hb
  push_cast at this ⊢
  exact this

lemma update_position_fields (seg : Segment) (dt now : ℚ)
    (h : 1 / 1000 ≤ |seg.move_speed|) :
    (seg.update_position dt now).current_position
        = max (-1000) (updateCore seg dt now).1.pos ∧
    (seg.update_position dt now).move_speed = (updateCore seg dt now).1.speed ∧
    (seg.update_position dt now).segment_start_time = (updateCore seg dt now).1.start ∧
    (seg.update_position dt now).move_range = (updateCore seg dt now).2 := by
  unfold Segment.update_position
  rw [if_neg (not_lt.mpr h)]
  exact ⟨rfl, rfl, rfl, rfl⟩

lemma reflectAt_pos_mem {mn mx : ℚ} (h : mn ≤ mx) (s : MoveState) (now : ℚ) :
    mn ≤ (reflectAt mn mx s now).pos ∧ (reflectAt mn mx s now).pos ≤ mx := by
  unfold reflectAt
  split_ifs <;> exact ⟨by linarith, by linarith⟩

lemma wrapAt_mem {mn mx : ℚ} (h : mn ≤ mx) (p : ℚ) :
    mn ≤ wrapAt mn mx p ∧ wrapAt mn mx p ≤ mx := by
  unfold wrapAt
  split_ifs with hrs hlo hhi
  · have h1 := pymod_nonneg (mn - p) hrs
    have h2 := pymod_lt (mn - p) hrs
    constructor <;> linarith
  · have h1 := pymod_nonneg (p - mx) hrs
    have h2 := pymod_lt (p - mx) hrs
    constructor <;> linarith
  · constructor <;> linarith
  · constructor <;> linarith

lemma clamp_mem {mn mx x : ℚ} (h1 : mn ≤ x) (h2 : x ≤ mx) (h3 : -1000 ≤ mx) :
    mn ≤ max (-1000) x ∧ max (-1000) x ≤ mx := by
  rcases le_total (-1000) x with hc | hc
  · rw [max_eq_right hc]; exact ⟨h1, h2⟩
  · rw [max_eq_left hc]; exact ⟨by linarith, h3⟩

/-- Claim C10 (counterexample): with `move_speed = 0` the function returns
before the final floor clamp, so a position below `-1000` survives. -/
theorem claim_C10_cex :
    (segC10cex.update_position 1 0).current_position = -5000 ∧
    ¬ (-1000 ≤ (segC10cex.update_position 1 0).current_position) := by
  have h : segC10cex.update_position 1 0 = segC10cex := by
    unfold Segment.update_position
    rw [if_pos (by norm_num [segC10cex])]
  rw [h]
  norm_num [segC10cex]

/-- Claim C10 (amended): when the segment actually moves
(`|move_speed| ≥ 0.001`), the final step of `update_position` floor-clamps
the position to `-1000`, so the result is always at least `-1000`. -/
theorem claim_C10 (seg : Segment) (dt now : ℚ)
    (hspeed : 1 / 1000 ≤ |seg.move_speed|) :
    -1000 ≤ (seg.update_position dt now).current_position := by
  rw [(update_position_fields seg dt now hspeed).1]
  exact le_max_left _ _

/-- Claim C10 witness: a concrete moving segment. -/
theorem claim_C10_w : -1000 ≤ (segW10.update_position 1 0).current_position :=
  claim_C10 segW10 1 0 (by norm_num [segW10])

/-- Claim C5 (counterexample): in reflect mode with `move_range = [-2000, -1500]`
the final `-1000` floor clamp lifts the position above the upper bound
`hi = -1500`, so `lo ≤ current_position ≤ hi` fails after the update. -/
theorem claim_C5_cex :
    (segC5cex.update_position 0 0).current_position = -1000 ∧
    ¬ ((segC5cex.update_position 0 0).current_position ≤ ((-1500 : Int) : ℚ)) := by
  have h : (segC5cex.update_position 0 0).current_position = -1000 := by
    rw [(update_position_fields segC5cex 0 0 (by norm_num [segC5cex])).1]
    norm_num [updateCore, boundaryAdjust, negAdjust, reflectAt, segC5cex]
  rw [h]
  norm_num

/-- Claim C5 (amended): in reflect mode with at least two range entries and
`|move_speed| ≥ 0.001`, provided the normalized upper bound is at least
`-1000` (the final floor clamp otherwise lifts the position above it), the
position lands in `[lo, hi]`; hitting the `lo` boundary from a non-negative
advanced position with negative speed clamps to `lo`, makes the speed
`+|move_speed|` and resets the dimmer timing, symmetrically at `hi` with
positive speed. -/
theorem claim_C5 (seg : Segment) (dt now : ℚ) (r0 r1 : Int) (rest : List Int)
    (hrange : seg.move_range = r0 :: r1 :: rest)
    (hrefl : seg.is_edge_reflect = true)
    (hspeed : 1 / 1000 ≤ |seg.move_speed|)
    (hclamp : (-1000 : ℚ) ≤ ((max r0 r1 : Int) : ℚ)) :
    (((min r0 r1 : Int) : ℚ) ≤ (seg.update_position dt now).current_position ∧
      (seg.update_position dt now).current_position ≤ ((max r0 r1 : Int) : ℚ)) ∧
    (0 ≤ r0 → r0 ≤ r1 →
      0 ≤ seg.current_position + seg.move_speed * dt →
      seg.current_position + seg.move_speed * dt ≤ (r0 : ℚ) →
      seg.move_speed < 0 →
      (seg.update_position dt now).current_position = (r0 : ℚ) ∧
      (seg.update_position dt now).move_speed = -seg.move_speed ∧
      (seg.update_position dt now).segment_start_time = now) ∧
    (0 ≤ r0 → r0 ≤ r1 →
      (r0 : ℚ) < seg.current_position + seg.move_speed * dt →
      (r1 : ℚ) ≤ seg.current_position + seg.move_speed * dt →
      0 < seg.move_speed →
      (seg.update_position dt now).current_position = (r1 : ℚ) ∧
      (seg.update_position dt now).move_speed = -seg.move_speed ∧
      (seg.update_position dt now).segment_start_time = now) := by
  obtain ⟨hpf, hvf, hsf, _⟩ := update_position_fields seg dt now hspeed
  have hcore : updateCore seg dt now
      = (reflectAt ((min r0 r1 : Int) : ℚ) ((max r0 r1 : Int) : ℚ)
          (negAdjust (r0 :: r1 :: rest) true
            (seg.current_position + seg.move_speed * dt) seg.move_speed
            seg.segment_start_time now) now,
         if r0 > r1 then [min r0 r1, max r0 r1] else r0 :: r1 :: rest) := by
    unfold updateCore
    rw [hrange, hrefl]
    rfl
  have hminmax : ((min r0 r1 : Int) : ℚ) ≤ ((max r0 r1 : Int) : ℚ) := by
    exact_mod_cast min_le_max
  refine ⟨?_, ?_, ?_⟩
  · rw [hpf, hcore]
    exact clamp_mem (reflectAt_pos_mem hminmax _ now).1
      (reflectAt_pos_mem hminmax _ now).2 hclamp
  · intro h0 h01 hge0 hple hvneg
    have hmn : min r0 r1 = r0 := min_eq_left h01
    have hmx : max r0 r1 = r1 := max_eq_right h01
    have hna : negAdjust (r0 :: r1 :: rest) true
        (seg.current_position + seg.move_speed * dt) seg.move_speed
        seg.segment_start_time now
        = ⟨seg.current_position + seg.move_speed * dt, seg.move_speed,
            seg.segment_start_time⟩ := by
      unfold negAdjust
      rw [if_neg (not_lt.mpr hge0)]
    have hra : reflectAt ((min r0 r1 : Int) : ℚ) ((max r0 r1 : Int) : ℚ)
        ⟨seg.current_position + seg.move_speed * dt, seg.move_speed,
          seg.segment_start_time⟩ now
        = ⟨((min r0 r1 : Int) : ℚ), |seg.move_speed|, now⟩ := by
      unfold reflectAt
      rw [hmn, hmx]
      rw [if_pos hple, if_pos hvneg]
    have hr0Q : (-1000 : ℚ) ≤ ((min r0 r1 : Int) : ℚ) := by
      rw [hmn]
      exact_mod_cast (by omega : (-1000 : Int) ≤ r0)
    refine ⟨?_, ?_, ?_⟩
    · rw [hpf, hcore, hna, hra, hmn] at *
      exact max_eq_right hr0Q
    · rw [hvf, hcore, hna, hra]
      exact abs_of_neg hvneg
    · rw [hsf, hcore, hna, hra]
  · intro h0 h01 hgt hge hvpos
    have hmn : min r0 r1 = r0 := min_eq_left h01
    have hmx : max r0 r1 = r1 := max_eq_right h01
    have hge0 : ¬ (seg.current_position + seg.move_speed * dt < 0) := by
      have : (0 : ℚ) ≤ (r0 : ℚ) := by exact_mod_cast h0
      push_neg
      linarith
    have hna : negAdjust (r0 :: r1 :: rest) true
        (seg.current_position + seg.move_speed * dt) seg.move_speed
        seg.segment_start_time now
        = ⟨seg.current_position + seg.move_speed * dt, seg.move_speed,
            seg.segment_start_time⟩ := by
      unfold negAdjust
      rw [if_neg hge0]
    have hra : reflectAt ((min r0 r1 : Int) : ℚ) ((max r0 r1 : Int) : ℚ)
        ⟨seg.current_position + seg.move_speed * dt, seg.move_speed,
          seg.segment_start_time⟩ now
        = ⟨((max r0 r1 : Int) : ℚ), -|seg.move_speed|, now⟩ := by
      unfold reflectAt
      rw [hmn, hmx]
      rw [if_neg (not_le.mpr hgt), if_pos hge, if_pos hvpos]
    have hr1Q : (-1000 : ℚ) ≤ ((max r0 r1 : Int) : ℚ) := by
      rw [hmx]
      exact_mod_cast (by omega : (-1000 : Int) ≤ r1)
    refine ⟨?_, ?_, ?_⟩
    · rw [hpf, hcore, hna, hra, hmx] at *
      exact max_eq_right hr1Q
    · rw [hvf, hcore, hna, hra]
      have : |seg.move_speed| = seg.move_speed := abs_of_pos hvpos
      rw [this]
    · rw [hsf, hcore, hna, hra]

/-- Claim C5 witness: a concrete reflect-mode segment stays inside its
range after an update. -/
theorem claim_C5_w :
    ((min 0 9 : Int) : ℚ) ≤ (segW5.update_position 1 5).current_position ∧
    (segW5.update_position 1 5).current_position ≤ ((max 0 9 : Int) : ℚ) :=
  (claim_C5 segW5 1 5 0 9 [] rfl rfl (by norm_num [segW5]) (by norm_num)).1

/-- Claim C6 (counterexample): wrap mode, `move_range = [3, 13]`, advanced
position `-2`.  The code first maps to `13 + ((-2) mod 10) = 21` and then
re-wraps to `11`, while the claimed formula `hi - ((lo - pos) mod (hi - lo))`
gives `8`. -/
theorem claim_C6_cex :
    (segC6cex.update_position 1 0).current_position = 11 ∧
    (segC6cex.update_position 1 0).current_position
      ≠ (13 : ℚ) - pymod ((3 : ℚ) - (0 + (-2) * 1)) ((13 : ℚ) - 3) := by
  have h : (segC6cex.update_position 1 0).current_position = 11 := by
    rw [(update_position_fields segC6cex 1 0 (by norm_num [segC6cex])).1]
    norm_num [updateCore, boundaryAdjust, negAdjust, wrapAt, segC6cex, pymod]
  rw [h]
  norm_num [pymod]

/-- Claim C6 (amended): wrap mode with `move_range = [lo, hi]` given in
order with `0 ≤ lo ≤ hi` and `|move_speed| ≥ 0.001`.  After the update
`lo ≤ current_position ≤ hi`; when the advanced position `p` satisfies
`0 ≤ p < lo` it becomes `hi - ((lo - p) mod (hi - lo))`; when `p > hi` it
becomes `lo + ((p - hi) mod (hi - lo))`; when `p < 0` the first block maps
it to `hi + (p mod (hi - lo))` and the second block re-wraps, yielding `hi`
when `(hi - lo)` divides `p` and `lo + (p mod (hi - lo))` otherwise; when
`hi = lo` the position is pinned to `lo`. -/
theorem claim_C6 (seg : Segment) (dt now : ℚ) (r0 r1 : Int) (rest : List Int)
    (hrange : seg.move_range = r0 :: r1 :: rest)
    (hwrap : seg.is_edge_reflect = false)
    (hr0 : 0 ≤ r0) (hr01 : r0 ≤ r1)
    (hspeed : 1 / 1000 ≤ |seg.move_speed|) :
    ((r0 : ℚ) ≤ (seg.update_position dt now).current_position ∧
      (seg.update_position dt now).current_position ≤ (r1 : ℚ)) ∧
    (r0 < r1 → 0 ≤ seg.current_position + seg.move_speed * dt →
      seg.current_position + seg.move_speed * dt < (r0 : ℚ) →
      (seg.update_position dt now).current_position
        = (r1 : ℚ) - pymod ((r0 : ℚ) - (seg.current_position + seg.move_speed * dt))
            ((r1 : ℚ) - (r0 : ℚ))) ∧
    (r0 < r1 → (r1 : ℚ) < seg.current_position + seg.move_speed * dt →
      (seg.update_position dt now).current_position
        = (r0 : ℚ) + pymod ((seg.current_position + seg.move_speed * dt) - (r1 : ℚ))
            ((r1 : ℚ) - (r0 : ℚ))) ∧
    (r0 < r1 → seg.current_position + seg.move_speed * dt < 0 →
      (seg.update_position dt now).current_position
        = (if pymod (seg.current_position + seg.move_speed * dt) ((r1 : ℚ) - (r0 : ℚ)) = 0
           then (r1 : ℚ)
           else (r0 : ℚ)
             + pymod (seg.current_position + seg.move_speed * dt) ((r1 : ℚ) - (r0 : ℚ)))) ∧
    (r0 = r1 → (seg.update_position dt now).current_position = (r0 : ℚ)) := by
  obtain ⟨hpf, _, _, _⟩ := update_position_fields seg dt now hspeed
  have hmn : min r0 r1 = r0 := min_eq_left hr01
  have hmx : max r0 r1 = r1 := max_eq_right hr01
  have hcore0 : updateCore seg dt now
      = (⟨wrapAt ((min r0 r1 : Int) : ℚ) ((max r0 r1 : Int) : ℚ)
            (negAdjust (r0 :: r1 :: rest) false
              (seg.current_position + seg.move_speed * dt) seg.move_speed
              seg.segment_start_time now).pos,
          (negAdjust (r0 :: r1 :: rest) false
              (seg.current_position + seg.move_speed * dt) seg.move_speed
              seg.segment_start_time now).speed,
          (negAdjust (r0 :: r1 :: rest) false
              (seg.current_position + seg.move_speed * dt) seg.move_speed
              seg.segment_start_time now).start⟩,
         if r0 > r1 then [min r0 r1, max r0 r1] else r0 :: r1 :: rest) := by
    unfold updateCore
    rw [hrange, hwrap]
    rfl
  have hcore : updateCore seg dt now
      = (⟨wrapAt ((r0 : Int) : ℚ) ((r1 : Int) : ℚ)
            (negAdjust (r0 :: r1 :: rest) false
              (seg.current_position + seg.move_speed * dt) seg.move_speed
              seg.segment_start_time now).pos,
          (negAdjust (r0 :: r1 :: rest) false
              (seg.current_position + seg.move_speed * dt) seg.move_speed
              seg.segment_start_time now).speed,
          (negAdjust (r0 :: r1 :: rest) false
              (seg.current_position + seg.move_speed * dt) seg.move_speed
              seg.segment_start_time now).start⟩,
         if r0 > r1 then [r0, r1] else r0 :: r1 :: rest) := by
    rw [hcore0, hmn, hmx]
  have hr0Q : (0 : ℚ) ≤ (r0 : ℚ) := by exact_mod_cast hr0
  have hr01Q : ((r0 : Int) : ℚ) ≤ ((r1 : Int) : ℚ) := by exact_mod_cast hr01
  refine ⟨?_, ?_, ?_, ?_, ?_⟩
  · rw [hpf, hcore]
    exact clamp_mem (wrapAt_mem hr01Q _).1 (wrapAt_mem hr01Q _).2 (by linarith)
  · intro hlt h0 hblo
    have hna : negAdjust (r0 :: r1 :: rest) false
        (seg.current_position + seg.move_speed * dt) seg.move_speed
        seg.segment_start_time now
        = ⟨seg.current_position + seg.move_speed * dt, seg.move_speed,
            seg.segment_start_time⟩ := by
      unfold negAdjust
      rw [if_neg (not_lt.mpr h0)]
    have hrs : (0 : ℚ) < (r1 : ℚ) - (r0 : ℚ) := by
      have : (r0 : ℚ) < (r1 : ℚ) := by exact_mod_cast hlt
      linarith
    have hwa : wrapAt ((r0 : Int) : ℚ) ((r1 : Int) : ℚ)
        (seg.current_position + seg.move_speed * dt)
        = (r1 : ℚ) - pymod ((r0 : ℚ) - (seg.current_position + seg.move_speed * dt))
            ((r1 : ℚ) - (r0 : ℚ)) := by
      unfold wrapAt
      rw [if_pos hrs, if_pos hblo]
    rw [hpf, hcore, hna]
    show max (-1000) (wrapAt _ _ _) = _
    rw [hwa]
    have h1 := pymod_lt ((r0 : ℚ) - (seg.current_position + seg.move_speed * dt)) hrs
    exact max_eq_right (by linarith)
  · intro hlt hbhi
    have h0 : ¬ (seg.current_position + seg.move_speed * dt < 0) := by
      push_neg
      have : (r1 : ℚ) ≥ 0 := by
        have : (0 : ℚ) ≤ (r0 : ℚ) := hr0Q
        linarith
      linarith
    have hna : negAdjust (r0 :: r1 :: rest) false
        (seg.current_position + seg.move_speed * dt) seg.move_speed
        seg.segment_start_time now
        = ⟨seg.current_position + seg.move_speed * dt, seg.move_speed,
            seg.segment_start_time⟩ := by
      unfold negAdjust
      rw [if_neg h0]
    have hrs : (0 : ℚ) < (r1 : ℚ) - (r0 : ℚ) := by
      have : (r0 : ℚ) < (r1 : ℚ) := by exact_mod_cast hlt
      linarith
    have hnotlo : ¬ (seg.current_position + seg.move_speed * dt < (r0 : ℚ)) := by
      push_neg
      linarith
    have hwa : wrapAt ((r0 : Int) : ℚ) ((r1 : Int) : ℚ)
        (seg.current_position + seg.move_speed * dt)
        = (r0 : ℚ) + pymod ((seg.current_position + seg.move_speed * dt) - (r1 : ℚ))
            ((r1 : ℚ) - (r0 : ℚ)) := by
      unfold wrapAt
      rw [if_pos hrs, if_neg hnotlo, if_pos hbhi]
    rw [hpf, hcore, hna]
    show max (-1000) (wrapAt _ _ _) = _
    rw [hwa]
    have h1 := pymod_nonneg ((seg.current_position + seg.move_speed * dt) - (r1 : ℚ)) hrs
    exact max_eq_right (by linarith)
  · intro hlt hneg
    have hrs : (0 : ℚ) < (r1 : ℚ) - (r0 : ℚ) := by
      have : (r0 : ℚ) < (r1 : ℚ) := by exact_mod_cast hlt
      linarith
    have hna : negAdjust (r0 :: r1 :: rest) false
        (seg.current_position + seg.move_speed * dt) seg.move_speed
        seg.segment_start_time now
        = ⟨(r1 : ℚ) + pymod (seg.current_position + seg.move_speed * dt)
            ((r1 : ℚ) - (r0 : ℚ)), seg.move_speed, seg.segment_start_time⟩ := by
      unfold negAdjust
      rw [if_pos hneg]
      show (if (r1 : ℚ) - (r0 : ℚ) > 0 then
              (⟨(r1 : ℚ) + pymod (seg.current_position + seg.move_speed * dt)
                  ((r1 : ℚ) - (r0 : ℚ)), seg.move_speed, seg.segment_start_time⟩ : MoveState)
            else ⟨seg.current_position + seg.move_speed * dt, seg.move_speed,
              seg.segment_start_time⟩) = _
      rw [if_pos hrs]
    have hm0 : 0 ≤ pymod (seg.current_position + seg.move_speed * dt)
        ((r1 : ℚ) - (r0 : ℚ)) :=
      pymod_nonneg _ hrs
    have hmlt : pymod (seg.current_position + seg.move_speed * dt)
        ((r1 : ℚ) - (r0 : ℚ)) < (r1 : ℚ) - (r0 : ℚ) :=
      pymod_lt _ hrs
    by_cases hm : pymod (seg.current_position + seg.move_speed * dt)
        ((r1 : ℚ) - (r0 : ℚ)) = 0
    · have hwa : wrapAt ((r0 : Int) : ℚ) ((r1 : Int) : ℚ)
          ((r1 : ℚ) + pymod (seg.current_position + seg.move_speed * dt)
            ((r1 : ℚ) - (r0 : ℚ)))
          = (r1 : ℚ) := by
        unfold wrapAt
        rw [if_pos hrs, if_neg (by push_neg; linarith), if_neg (by rw [hm]; push_neg; linarith)]
        rw [hm]
        ring
      rw [hpf, hcore, hna]
      show max (-1000) (wrapAt _ _ _) = _
      rw [hwa, if_pos hm]
      exact max_eq_right (by linarith)
    · have hmpos : 0 < pymod (seg.current_position + seg.move_speed * dt)
          ((r1 : ℚ) - (r0 : ℚ)) :=
        lt_of_le_of_ne hm0 (Ne.symm hm)
      have hdiff : (r1 : ℚ) + pymod (seg.current_position + seg.move_speed * dt)
            ((r1 : ℚ) - (r0 : ℚ)) - (r1 : ℚ)
          = pymod (seg.current_position + seg.move_speed * dt) ((r1 : ℚ) - (r0 : ℚ)) := by
        ring
      have hwa : wrapAt ((r0 : Int) : ℚ) ((r1 : Int) : ℚ)
          ((r1 : ℚ) + pymod (seg.current_position + seg.move_speed * dt)
            ((r1 : ℚ) - (r0 : ℚ)))
          = (r0 : ℚ) + pymod (seg.current_position + seg.move_speed * dt)
              ((r1 : ℚ) - (r0 : ℚ)) := by
        unfold wrapAt
        rw [if_pos hrs, if_neg (by push_neg; linarith), if_pos (by linarith)]
        rw [hdiff, pymod_eq_self hm0 hmlt]
      rw [hpf, hcore, hna]
      show max (-1000) (wrapAt _ _ _) = _
      rw [hwa, if_neg hm]
      exact max_eq_right (by linarith)
  · intro heq
    have hwa : wrapAt ((r0 : Int) : ℚ) ((r1 : Int) : ℚ)
        (negAdjust (r0 :: r1 :: rest) false
          (seg.current_position + seg.move_speed * dt) seg.move_speed
          seg.segment_start_time now).pos
        = (r0 : ℚ) := by
      unfold wrapAt
      rw [if_neg (by rw [heq]; norm_num)]
    rw [hpf, hcore]
    show max (-1000) (wrapAt _ _ _) = _
    rw [hwa]
    exact max_eq_right (by linarith)

/-- Claim C6 witness: a concrete wrap-mode segment stays inside its range
after an update, and the above-`hi` wrap formula applies. -/
theorem claim_C6_w :
    (((0 : Int) : ℚ) ≤ (segW6.update_position 1 0).current_position ∧
      (segW6.update_position 1 0).current_position ≤ ((9 : Int) : ℚ)) ∧
    (segW6.update_position 1 0).current_position
      = ((0 : Int) : ℚ) + pymod ((segW6.current_position + segW6.move_speed * 1) - ((9 : Int) : ℚ))
          (((9 : Int) : ℚ) - ((0 : Int) : ℚ)) :=
  ⟨(claim_C6 segW6 1 0 0 9 [] rfl rfl (by norm_num) (by norm_num)
      (by norm_num [segW6])).1,
   (claim_C6 segW6 1 0 0 9 [] rfl rfl (by norm_num) (by norm_num)
      (by norm_num [segW6])).2.2.1 (by norm_num) (by norm_num [segW6])⟩

/-- Claim C2 (counterexample): `update_position` has no fractional
accumulator; with `move_speed = 1/2` and `dt = 1` an integer position `0`
becomes the non-integer `1/2`. -/
theorem claim_C2_cex :
    segC2cex.current_position = ((0 : Int) : ℚ) ∧
    (segC2cex.update_position 1 0).current_position = 1 / 2 ∧
    ¬ ∃ n : Int, (segC2cex.update_position 1 0).current_position = (n : ℚ) := by
  have hsp : 1 / 1000 ≤ |segC2cex.move_speed| := by
    rw [show segC2cex.move_speed = 1 / 2 from rfl,
      abs_of_nonneg (by norm_num : (0 : ℚ) ≤ 1 / 2)]
    norm_num
  have heval : (segC2cex.update_position 1 0).current_position = 1 / 2 := by
    rw [(update_position_fields segC2cex 1 0 hsp).1]
    norm_num [updateCore, boundaryAdjust, negAdjust, reflectAt, segC2cex]
  refine ⟨by norm_num [segC2cex], heval, ?_⟩
  rintro ⟨n, hn⟩
  rw [heval] at hn
  have h1 : (1 : ℚ) = 2 * (n : ℚ) := by linarith
  have h2 : (1 : Int) = 2 * n := by exact_mod_cast h1
  omega

/-- Claim C2 (amended): `update_position` adds `move_speed * delta_time`
directly to `current_position` (there is no fractional accumulator and no
integer stepping); when the advanced position lies strictly inside a
non-negative ordered range, the position changes by exactly
`move_speed * delta_time` and speed and timing are untouched. -/
theorem claim_C2 (seg : Segment) (dt now : ℚ) (r0 r1 : Int) (rest : List Int)
    (hrange : seg.move_range = r0 :: r1 :: rest)
    (hr0 : 0 ≤ r0)
    (hspeed : 1 / 1000 ≤ |seg.move_speed|)
    (hlo : (r0 : ℚ) < seg.current_position + seg.move_speed * dt)
    (hhi : seg.current_position + seg.move_speed * dt < (r1 : ℚ)) :
    (seg.update_position dt now).current_position
      = seg.current_position + seg.move_speed * dt ∧
    (seg.update_position dt now).move_speed = seg.move_speed ∧
    (seg.update_position dt now).segment_start_time = seg.segment_start_time := by
  obtain ⟨hpf, hvf, hsf, _⟩ := update_position_fields seg dt now hspeed
  have hr01 : r0 ≤ r1 := by
    have : (r0 : ℚ) < (r1 : ℚ) := lt_trans hlo hhi
    exact_mod_cast this.le
  have hmn : min r0 r1 = r0 := min_eq_left hr01
  have hmx : max r0 r1 = r1 := max_eq_right hr01
  have hr0Q : (0 : ℚ) ≤ (r0 : ℚ) := by exact_mod_cast hr0
  have hge0 : ¬ (seg.current_position + seg.move_speed * dt < 0) := by
    push_neg
    linarith
  have hna : negAdjust (r0 :: r1 :: rest) seg.is_edge_reflect
      (seg.current_position + seg.move_speed * dt) seg.move_speed
      seg.segment_start_time now
      = ⟨seg.current_position + seg.move_speed * dt, seg.move_speed,
          seg.segment_start_time⟩ := by
    unfold negAdjust
    rw [if_neg hge0]
  have hclampid : max (-1000 : ℚ) (seg.current_position + seg.move_speed * dt)
      = seg.current_position + seg.move_speed * dt :=
    max_eq_right (by linarith)
  cases hb : seg.is_edge_reflect with
  | true =>
    have hcore : updateCore seg dt now
        = (reflectAt ((min r0 r1 : Int) : ℚ) ((max r0 r1 : Int) : ℚ)
            (negAdjust (r0 :: r1 :: rest) seg.is_edge_reflect
              (seg.current_position + seg.move_speed * dt) seg.move_speed
              seg.segment_start_time now) now,
           if r0 > r1 then [min r0 r1, max r0 r1] else r0 :: r1 :: rest) := by
      unfold updateCore
      rw [hrange, hb]
      rfl
    have hra : reflectAt ((min r0 r1 : Int) : ℚ) ((max r0 r1 : Int) : ℚ)
        ⟨seg.current_position + seg.move_speed * dt, seg.move_speed,
          seg.segment_start_time⟩ now
        = ⟨seg.current_position + seg.move_speed * dt, seg.move_speed,
            seg.segment_start_time⟩ := by
      unfold reflectAt
      rw [hmn, hmx]
      rw [if_neg (not_le.mpr hlo), if_neg (not_le.mpr hhi)]
    refine ⟨?_, ?_, ?_⟩
    · rw [hpf, hcore, hna, hra]
      exact hclampid
    · rw [hvf, hcore, hna, hra]
    · rw [hsf, hcore, hna, hra]
  | false =>
    have hcore : updateCore seg dt now
        = (⟨wrapAt ((min r0 r1 : Int) : ℚ) ((max r0 r1 : Int) : ℚ)
              (negAdjust (r0 :: r1 :: rest) seg.is_edge_reflect
                (seg.current_position + seg.move_speed * dt) seg.move_speed
                seg.segment_start_time now).pos,
            (negAdjust (r0 :: r1 :: rest) seg.is_edge_reflect
                (seg.current_position + seg.move_speed * dt) seg.move_speed
                seg.segment_start_time now).speed,
            (negAdjust (r0 :: r1 :: rest) seg.is_edge_reflect
                (seg.current_position + seg.move_speed * dt) seg.move_speed
                seg.segment_start_time now).start⟩,
           if r0 > r1 then [min r0 r1, max r0 r1] else r0 :: r1 :: rest) := by
      unfold updateCore
      rw [hrange, hb]
      rfl
    have hwa : wrapAt ((min r0 r1 : Int) : ℚ) ((max r0 r1 : Int) : ℚ)
        (seg.current_position + seg.move_speed * dt)
        = seg.current_position + seg.move_speed * dt := by
      unfold wrapAt
      rw [hmn, hmx]
      rw [if_pos (by linarith), if_neg (not_lt.mpr hlo.le), if_neg (not_lt.mpr hhi.le)]
    refine ⟨?_, ?_, ?_⟩
    · rw [hpf, hcore, hna]
      show max (-1000) (wrapAt _ _ _) = _
      rw [hwa]
      exact hclampid
    · rw [hvf, hcore, hna]
    · rw [hsf, hcore, hna]

/-- Claim C2 witness: a concrete in-range segment advances by exactly
`move_speed * dt`. -/
theorem claim_C2_w :
    (segW2.update_position (1/2) 0).current_position
      = segW2.current_position + segW2.move_speed * (1/2) ∧
    (segW2.update_position (1/2) 0).move_speed = segW2.move_speed ∧
    (segW2.update_position (1/2) 0).segment_start_time = segW2.segment_start_time :=
  claim_C2 segW2 (1/2) 0 0 224 [] rfl (by norm_num) (by norm_num [segW2])
    (by norm_num [segW2]) (by norm_num [segW2])

lemma dimmerCycle_nonneg (dimmer : List (Int × Int × Int)) :
    0 ≤ dimmerCycleMs dimmer := by
  unfold dimmerCycleMs
  apply List.sum_nonneg
  intro x hx
  obtain ⟨tr, _, rfl⟩ := List.mem_map.mp hx
  exact_mod_cast le_trans (by norm_num : (0 : Int) ≤ 1) (le_max_left 1 tr.1)

lemma dimmerCycle_pos (d : Int × Int × Int) (rest : List (Int × Int × Int)) :
    0 < dimmerCycleMs (d :: rest) := by
  have h1 : (1 : ℚ) ≤ ((max 1 d.1 : Int) : ℚ) := by exact_mod_cast le_max_left 1 d.1
  have h2 := dimmerCycle_nonneg rest
  unfold dimmerCycleMs at *
  simp only [List.map_cons, List.sum_cons]
  linarith

lemma dimmerWalk_zero (d : Int × Int × Int) (rest : List (Int × Int × Int)) :
    dimmerWalk 0 (d :: rest) 0 = some (max 0 (min 1 ((d.2.1 : ℚ) / 100))) := by
  have hdm : (0 : ℚ) < ((max 1 d.1 : Int) : ℚ) := by
    exact_mod_cast lt_of_lt_of_le (by norm_num : (0 : Int) < 1) (le_max_left 1 d.1)
  simp only [dimmerWalk]
  rw [if_pos (by linarith : (0 : ℚ) ≤ 0 + ((max 1 d.1 : Int) : ℚ))]
  rw [if_pos hdm]
  norm_num

/-- Claim C1 (counterexample): with `dimmer_time = [[1000, 50, 100]]` and
`t = start + 1s` the elapsed time is exactly one positive cycle, but the
code returns the FIRST transition's start brightness `0.5`, not the last
transition's end brightness `1.0`: there is no `phase == 0` special case. -/
theorem claim_C1_cex :
    (1 - segC1cex.segment_start_time) * 1000 = 1 * dimmerCycleMs segC1cex.dimmer_time ∧
    segC1cex.get_brightness_at_time 1 = 1 / 2 ∧
    segC1cex.get_brightness_at_time 1 ≠ max 0 (min 1 ((100 : ℚ) / 100)) := by
  have hd : segC1cex.dimmer_time = [((1000 : Int), (50 : Int), (100 : Int))] := rfl
  have hst : segC1cex.segment_start_time = 0 := rfl
  have hc : dimmerCycleMs [((1000 : Int), (50 : Int), (100 : Int))] = 1000 := by
    norm_num [dimmerCycleMs, max_def]
  have heval : segC1cex.get_brightness_at_time 1 = 1 / 2 := by
    simp only [Segment.get_brightness_at_time, hd, hst]
    rw [if_neg (List.cons_ne_nil _ _), hc]
    rw [if_neg (by norm_num : ¬ (1000 : ℚ) ≤ 0)]
    have hph : pymod ((1 - 0) * 1000) (1000 : ℚ) = 0 := by
      have h1 : ((1 : ℚ) - 0) * 1000 = ((1 : ℕ) : ℚ) * (1000 : ℚ) := by norm_num
      rw [h1, pymod_natCast_mul 1 (by norm_num)]
    rw [hph, dimmerWalk_zero]
    show max 0 (min 1 ((50 : ℚ) / 100)) = 1 / 2
    rw [show min 1 ((50 : ℚ) / 100) = 50 / 100 from min_eq_right (by norm_num)]
    rw [show max 0 ((50 : ℚ) / 100) = 50 / 100 from max_eq_right (by norm_num)]
    norm_num
  refine ⟨by rw [hd, hst, hc]; norm_num, heval, ?_⟩
  rw [heval]
  norm_num

/-- Claim C1 (amended): for a segment with non-empty `dimmer_time`, at any
instant whose elapsed time is an exact non-negative integer multiple of the
cycle length (phase exactly 0), `get_brightness_at_time` lands in the FIRST
transition with progress 0 and returns that transition's START brightness
divided by 100, clamped to `[0, 1]` — not the end brightness of the last
transition. -/
theorem claim_C1 (seg : Segment) (t : ℚ) (d : Int × Int × Int)
    (rest : List (Int × Int × Int)) (k : ℕ)
    (hd : seg.dimmer_time = d :: rest)
    (he : (t - seg.segment_start_time) * 1000
      = (k : ℚ) * dimmerCycleMs seg.dimmer_time) :
    seg.get_brightness_at_time t = max 0 (min 1 ((d.2.1 : ℚ) / 100)) := by
  rw [hd] at he
  have hcyc : (0 : ℚ) < dimmerCycleMs (d :: rest) := dimmerCycle_pos d rest
  simp only [Segment.get_brightness_at_time, hd]
  rw [if_neg (List.cons_ne_nil d rest), if_neg (not_le.mpr hcyc), he,
    pymod_natCast_mul k hcyc.ne', dimmerWalk_zero]

/-- Claim C1 witness: two transitions `[500, 30, 80], [250, 60, 10]`
(cycle 750 ms) observed after exactly two cycles return the first start
brightness `0.3`. -/
theorem claim_C1_w :
    segW1.get_brightness_at_time (3 / 2) = max 0 (min 1 ((30 : ℚ) / 100)) :=
  claim_C1 segW1 (3 / 2) (500, 30, 80) [(250, 60, 10)] 2 rfl
    (by norm_num [segW1, dimmerCycleMs, max_def])

/-- Claim C3 (code-bug evaluation): at `current_position = -1` with a
one-LED expanded run (`N = 1`, so `current_position ≤ -N`), the fast path
renders the whole run at LED 0 and changes the frame, while the pure-Python
fallback renders nothing and leaves the frame unchanged. -/
theorem claim_C3_eval :
    segC3.render_to_led_array_fast palRed 0 frameOne = [⟨255, 0, 0⟩] ∧
    segC3.render_to_led_array palRed 0 frameOne = frameOne := by
  have hb : segC3.get_brightness_at_time 0 = 1 := by
    have hd : segC3.dimmer_time = [((1000 : Int), (100 : Int), (100 : Int))] := rfl
    have hst : segC3.segment_start_time = 0 := rfl
    have hc : dimmerCycleMs [((1000 : Int), (100 : Int), (100 : Int))] = 1000 := by
      norm_num [dimmerCycleMs, max_def]
    simp only [Segment.get_brightness_at_time, hd, hst]
    rw [if_neg (List.cons_ne_nil _ _), hc, if_neg (by norm_num : ¬ (1000 : ℚ) ≤ 0)]
    have hph : pymod ((0 - 0) * 1000) (1000 : ℚ) = 0 := by
      have h1 : ((0 : ℚ) - 0) * 1000 = ((0 : ℕ) : ℚ) * (1000 : ℚ) := by norm_num
      rw [h1, pymod_natCast_mul 0 (by norm_num)]
    rw [hph, dimmerWalk_zero]
    show max 0 (min 1 ((100 : ℚ) / 100)) = 1
    rw [show (100 : ℚ) / 100 = 1 by norm_num, min_self, max_eq_right zero_le_one]
  constructor
  · unfold Segment.render_to_led_array_fast
    rw [if_neg (by norm_num [segC3, palRed]), if_neg (by rw [hb]; norm_num)]
    have hcolors : fastColors segC3 palRed 0 = [⟨255, 0, 0⟩] := by
      unfold fastColors
      rw [hb]
      norm_num [expandColors, expandParts, expandExtras, paletteColor,
        apply_transparency_brightness, clampChan, truncInt, segC3, palRed, max_def]
    rw [hcolors]
    rw [if_pos (by norm_num)]
    rw [if_neg (by norm_num [segC3])]
    norm_num [segC3, placeLoop, addToFrame, add_color_to_led, truncInt,
      frameOne, apply_fractional_fade, fadeFactor, max_def, min_def]
  · have hcols : segC3.get_led_colors_with_timing palRed 0 = [⟨255, 0, 0⟩] := by
      unfold Segment.get_led_colors_with_timing
      rw [if_neg (by norm_num [segC3, palRed]), if_neg (by rw [hb]; norm_num), hb]
      norm_num [partsLoopFallback, extrasLoopFallback,
        ColorUtils.calculate_segment_color, ColorUtils.get_palette_color,
        ColorUtils.validate_rgb_color, ColorUtils.apply_transparency,
        ColorUtils.apply_brightness, clamp_rgb, truncInt, segC3, palRed,
        max_def, min_def]
    unfold Segment.render_to_led_array
    rw [hcols]
    rw [if_neg (by norm_num)]
    rw [if_pos (by norm_num [segC3] : segC3.current_position < 0)]
    rw [if_neg (by norm_num [segC3])]
    rw [if_pos (by norm_num [segC3, truncInt])]

/-- Claim C7: a segment whose dimmer brightness is 0 at the render instant
contributes nothing: both the fast path and the pure-Python fallback return
with the frame buffer unchanged. -/
theorem claim_C7 (seg : Segment) (palette : List RGB) (t : ℚ) (frame : List RGB)
    (h : seg.get_brightness_at_time t = 0) :
    seg.render_to_led_array_fast palette t frame = frame ∧
    seg.render_to_led_array palette t frame = frame := by
  have hle : seg.get_brightness_at_time t ≤ 0 := le_of_eq h
  have hcols : seg.get_led_colors_with_timing palette t = [] := by
    unfold Segment.get_led_colors_with_timing
    rcases em (seg.color = [] ∨ palette = []) with h1 | h1
    · rw [if_pos h1]
    · rw [if_neg h1, if_pos hle]
  constructor
  · unfold Segment.render_to_led_array_fast
    rcases em (seg.color = [] ∨ palette = []) with h1 | h1
    · rw [if_pos h1]
    · rw [if_neg h1, if_pos hle]
  · unfold Segment.render_to_led_array
    rw [if_pos hcols]

/-- Claim C7 witness: a concrete segment with dimmer `[[1000, 0, 0]]` has
brightness 0 at `t = 0` and leaves a concrete frame untouched. -/
theorem claim_C7_w :
    segW7.get_brightness_at_time 0 = 0 ∧
    segW7.render_to_led_array_fast palRed 0 frameOne = frameOne ∧
    segW7.render_to_led_array palRed 0 frameOne = frameOne := by
  have hb : segW7.get_brightness_at_time 0 = 0 := by
    have hd : segW7.dimmer_time = [((1000 : Int), (0 : Int), (0 : Int))] := rfl
    have hst : segW7.segment_start_time = 0 := rfl
    have hc : dimmerCycleMs [((1000 : Int), (0 : Int), (0 : Int))] = 1000 := by
      norm_num [dimmerCycleMs, max_def]
    simp only [Segment.get_brightness_at_time, hd, hst]
    rw [if_neg (List.cons_ne_nil _ _), hc, if_neg (by norm_num : ¬ (1000 : ℚ) ≤ 0)]
    have hph : pymod ((0 - 0) * 1000) (1000 : ℚ) = 0 := by
      have h1 : ((0 : ℚ) - 0) * 1000 = ((0 : ℕ) : ℚ) * (1000 : ℚ) := by norm_num
      rw [h1, pymod_natCast_mul 0 (by norm_num)]
    rw [hph, dimmerWalk_zero]
    show max 0 (min 1 ((0 : ℚ) / 100)) = 0
    norm_num
  exact ⟨hb, (claim_C7 segW7 palRed 0 frameOne hb).1,
    (claim_C7 segW7 palRed 0 frameOne hb).2⟩

/-- Claim C8: `apply_master_brightness` first clamps `m` into `[0, 255]`;
a clamped value of 255 is the identity, 0 zeroes every channel, and
otherwise every channel becomes `int(c * m / 255)` with truncation toward
zero. -/
theorem claim_C8 (color : List Int) (m : Int) :
    (clampMaster m = 255 → ColorUtils.apply_master_brightness color m = color) ∧
    (clampMaster m = 0 →
      ColorUtils.apply_master_brightness color m = color.map (fun _ => (0 : Int))) ∧
    (clampMaster m ≠ 255 →
      ColorUtils.apply_master_brightness color m
        = color.map (fun c : Int => truncInt ((c : ℚ) * ((clampMaster m : Int) : ℚ) / 255))) := by
  refine ⟨?_, ?_, ?_⟩
  · intro h
    unfold ColorUtils.apply_master_brightness
    rw [if_pos h]
  · intro h
    unfold ColorUtils.apply_master_brightness
    rw [if_neg (by rw [h]; norm_num), h]
    have hf : (fun c : Int => truncInt ((c : ℚ) * (((0 : Int) : ℚ) / 255)))
        = fun _ : Int => (0 : Int) := by
      funext c
      norm_num [truncInt]
    rw [hf]
  · intro h
    unfold ColorUtils.apply_master_brightness
    rw [if_neg h]
    simp [mul_div_assoc]

/-- Claim C8 witness: concrete evaluations of the three regimes. -/
theorem claim_C8_w :
    ColorUtils.apply_master_brightness [10, 200, 255] 300 = [10, 200, 255] ∧
    ColorUtils.apply_master_brightness [10, 200, 255] (-5)
      = List.map (fun _ => (0 : Int)) [10, 200, 255] ∧
    ColorUtils.apply_master_brightness [10, 200, 255] 128
      = List.map (fun c : Int => truncInt ((c : ℚ) * ((clampMaster 128 : Int) : ℚ) / 255))
          [10, 200, 255] :=
  ⟨(claim_C8 [10, 200, 255] 300).1 (by norm_num [clampMaster]),
   (claim_C8 [10, 200, 255] (-5)).2.1 (by norm_num [clampMaster]),
   (claim_C8 [10, 200, 255] 128).2.2 (by norm_num [clampMaster])⟩

lemma padTo_length {α : Type} (xs : List α) (n : Nat) (x : α) :
    (padTo xs n x).length = max xs.length n := by
  unfold padTo
  rw [List.length_append, List.length_replicate]
  omega

/-- Claim C4 (counterexample): a transparency array LONGER than the color
array is not trimmed by `__post_init__`, so the three lengths are not
always equal. -/
theorem claim_C4_cex :
    (postInitTransparency (postInitColor [0]) [1 / 10, 2 / 10]).length
      ≠ (postInitColor [0]).length := by
  have h1 : postInitColor [0] = [0] := rfl
  have h2 : postInitTransparency [0] [1 / 10, 2 / 10] = [1 / 10, 2 / 10] := by
    unfold postInitTransparency padTo
    rw [if_neg (by simp : ¬ ([(1 : ℚ) / 10, 2 / 10] = []))]
    norm_num
  rw [h1, h2]
  norm_num

/-- Claim C4 (amended): `__post_init__` pads short `transparency` and
`length` arrays up to `|color|`, so `|transparency| ≥ |color|` and
`|length| ≥ |color|` always hold after construction; the three lengths are
equal whenever the supplied arrays are not longer than `color`, but longer
arrays are kept as-is. -/
theorem claim_C4 (color : List Int) (transparency : List ℚ) (len0 : List Int) :
    (postInitColor color).length
        ≤ (postInitTransparency (postInitColor color) transparency).length ∧
    (postInitColor color).length
        ≤ (postInitLength (postInitColor color) len0).length ∧
    (transparency.length ≤ (postInitColor color).length →
      (postInitTransparency (postInitColor color) transparency).length
        = (postInitColor color).length) ∧
    (len0.length ≤ (postInitColor color).length →
      (postInitLength (postInitColor color) len0).length
        = (postInitColor color).length) := by
  refine ⟨?_, ?_, ?_, ?_⟩
  · unfold postInitTransparency
    rw [padTo_length]
    exact le_max_right _ _
  · unfold postInitLength
    rw [padTo_length]
    exact le_max_right _ _
  · intro h
    unfold postInitTransparency
    rw [padTo_length]
    split_ifs with he
    · simp
    · exact max_eq_right h
  · intro h
    unfold postInitLength
    rw [padTo_length]
    split_ifs with he
    · simp
    · exact max_eq_right h

/-- Claim C4 witness: with two colors and one transparency entry the padded
arrays reach exactly the color length. -/
theorem claim_C4_w :
    (postInitColor [5, 6]).length
        ≤ (postInitTransparency (postInitColor [5, 6]) [1 / 2]).length ∧
    (postInitTransparency (postInitColor [5, 6]) [1 / 2]).length
        = (postInitColor [5, 6]).length :=
  ⟨(claim_C4 [5, 6] [1 / 2] []).1,
   (claim_C4 [5, 6] [1 / 2] []).2.2.1
     (by rw [show postInitColor [5, 6] = [5, 6] from rfl]; norm_num)⟩

lemma validateDimmerEntry_spec (tr : List Int) :
    ∃ d s e, validateDimmerEntry tr = [d, s, e] ∧ 100 ≤ d ∧ 0 ≤ s ∧ s ≤ 100 ∧
      0 ≤ e ∧ e ≤ 100 := by
  unfold validateDimmerEntry
  split_ifs with h
  · exact ⟨_, _, _, rfl, le_max_left _ _, le_max_left _ _,
      max_le (by norm_num) (min_le_left _ _), le_max_left _ _,
      max_le (by norm_num) (min_le_left _ _)⟩
  · exact ⟨1000, 0, 100, rfl, by norm_num, by norm_num, by norm_num, by norm_num,
      by norm_num⟩

lemma postInitDimmer_eq (dimmer : List (List Int)) :
    postInitDimmer dimmer
      = (if dimmer = [] then [[1000, 0, 100]] else dimmer).map validateDimmerEntry := by
  unfold postInitDimmer validateDimmerTime
  rcases em (dimmer = []) with h | h <;> simp [h]

/-- Claim C9: after construction `dimmer_time` is non-empty and every entry
is a 3-element list with duration at least 100 ms and brightnesses clamped
into `[0, 100]`; any entry that is not a 3-element list is replaced by
`[1000, 0, 100]`. -/
theorem claim_C9 (dimmer : List (List Int)) :
    postInitDimmer dimmer ≠ [] ∧
    (∀ tr ∈ postInitDimmer dimmer, tr.length = 3 ∧ 100 ≤ tr.getD 0 0 ∧
      0 ≤ tr.getD 1 0 ∧ tr.getD 1 0 ≤ 100 ∧ 0 ≤ tr.getD 2 0 ∧ tr.getD 2 0 ≤ 100) ∧
    (∀ i, ∀ h : i < dimmer.length, (dimmer.get ⟨i, h⟩).length ≠ 3 →
      (postInitDimmer dimmer).getD i [] = [1000, 0, 100]) := by
  refine ⟨?_, ?_, ?_⟩
  · rw [postInitDimmer_eq]
    rcases em (dimmer = []) with h | h <;> simp [h]
  · intro tr htr
    rw [postInitDimmer_eq] at htr
    obtain ⟨s, _, rfl⟩ := List.mem_map.mp htr
    obtain ⟨d, sb, e, heq, h1, h2, h3, h4, h5⟩ := validateDimmerEntry_spec s
    rw [heq]
    exact ⟨rfl, by simpa using h1, by simpa using h2, by simpa using h3,
      by simpa using h4, by simpa using h5⟩
  · intro i h hne
    rw [postInitDimmer_eq]
    have hd : ¬ (dimmer = []) := by
      intro h0
      rw [h0] at h
      exact absurd h (by norm_num)
    rw [if_neg hd]
    have hlen : i < (dimmer.map validateDimmerEntry).length := by
      rw [List.length_map]
      exact h
    rw [List.getD_eq_getElem _ _ hlen, List.getElem_map]
    show validateDimmerEntry dimmer[i] = _
    unfold validateDimmerEntry
    rw [if_neg (by rw [show dimmer[i] = dimmer.get ⟨i, h⟩ from rfl]; exact hne)]

/-- Claim C9 witness: a short entry is clamped and a malformed entry is
replaced by the default transition. -/
theorem claim_C9_w :
    postInitDimmer [[50, -20, 300], [7]] ≠ [] ∧
    (postInitDimmer [[50, -20, 300], [7]]).getD 1 [] = [1000, 0, 100] :=
  ⟨(claim_C9 [[50, -20, 300], [7]]).1,
   (claim_C9 [[50, -20, 300], [7]]).2.2 1 (by norm_num) (by decide)⟩
